import Mathlib

/-!
# Verification of the lighthouse bundling pipeline (`build/build-bundle.js`)

Shallow embedding of the build script that assembles lighthouse entry points
into deployment-specific bundles.  Strings are modelled as `List Char` (`Str`)
so that the JavaScript string operations used by the script (`includes`,
`replace` with a string pattern, `basename`, suffix stripping) can be given
executable, faithful definitions.

The embedding covers:
* the target-classification helpers `isDevtools` / `isLightrider`;
* the sequence of bundler-session operations (`plugin`, `transform`,
  `ignore`, `require`/expose) issued by `browserifyFile`, as an ordered list;
* the promise wiring of `browserifyFile` (which stream events have handlers);
* the effect skeleton of `browserifyFile`/`build` (which filesystem effects
  happen in which order, and where failures cut the sequence);
* `minifyScript` over an association-list filesystem, with the terser
  minifier as an explicit functional parameter;
* `cli` argument handling.
-/

set_option autoImplicit false

namespace BuildBundle

/-- JavaScript strings, modelled as lists of characters. -/
abbrev Str := List Char

/-- `f.replace(/\.js$/, '')`: drop a trailing `.js` extension if present. -/
def dropJsSuffix (f : Str) : Str :=
  if List.isSuffixOf (String.toList ".js") f then List.take (f.length - 3) f else f

/-- `path.basename(file)`: the component after the last `/` (the entry paths
fed to the script never end in a slash, so the trailing-separator edge case of
the library function does not arise). -/
def basename (file : Str) : Str :=
  (List.takeWhile (fun c => c != '/') file.reverse).reverse

/-- JavaScript `String.prototype.includes`: `pat` occurs as a contiguous
substring. -/
def containsSub (pat : Str) : Str → Bool
  | [] => List.isEmpty pat
  | c :: rest => List.isPrefixOf pat (c :: rest) || containsSub pat rest

/-- `const isDevtools = file => path.basename(file).includes('devtools')` -/
def isDevtools (file : Str) : Bool :=
  containsSub (String.toList "devtools") (basename file)

/-- `const isLightrider = file => path.basename(file).includes('lightrider')` -/
def isLightrider (file : Str) : Bool :=
  containsSub (String.toList "lightrider") (basename file)

/-- JavaScript `s.replace(pat, rep)` with a string pattern: replace the first
occurrence of `pat` in `s` (if any) by `rep`. -/
def replaceFirstL (pat rep : Str) : Str → Str
  | [] => []
  | c :: rest =>
    if List.isPrefixOf pat (c :: rest) then rep ++ List.drop pat.length (c :: rest)
    else c :: replaceFirstL pat rep rest

/-- The module registry snapshot the script computes at load time:
`LighthouseRunner.getAuditList()`, `LighthouseRunner.getGathererList()`, the
resolved locale-data files, and the publisher-ads plugin's audit paths. -/
structure Registry where
  auditFiles : List Str
  gathererFiles : List Str
  locales : List Str
  pubAdsAudits : List Str

/-- `audits`: `getAuditList().map(f => './lighthouse-core/audits/' + f.replace(/\.js$/, ''))` -/
def audits (reg : Registry) : List Str :=
  reg.auditFiles.map (fun f => String.toList "./lighthouse-core/audits/" ++ dropJsSuffix f)

/-- `gatherers`: `getGathererList().map(f => './lighthouse-core/gather/gatherers/' + f.replace(/\.js$/, ''))` -/
def gatherers (reg : Registry) : List Str :=
  reg.gathererFiles.map
    (fun f => String.toList "./lighthouse-core/gather/gatherers/" ++ dropJsSuffix f)

/-- `const corePath = './lighthouse-core/'` -/
def corePath : Str := String.toList "./lighthouse-core/"

/-- `const driverPath = `${corePath}gather/`` -/
def driverPath : Str := corePath ++ String.toList "gather/"

/-- The seven package names the script always ignores (lines 67-73). -/
def fixedIgnores : List Str :=
  [String.toList "source-map", String.toList "debug/node", String.toList "intl",
   String.toList "intl-pluralrules", String.toList "raven", String.toList "rimraf",
   String.toList "pako/lib/zlib/inflate.js"]

/-- `require.resolve('../lighthouse-core/gather/connections/cri.js')`, modelled
by its module specifier. -/
def criPath : Str := String.toList "../lighthouse-core/gather/connections/cri.js"

/-- `require.resolve('../lighthouse-core/report/html/html-report-assets.js')`,
modelled by its module specifier. -/
def htmlReportAssetsPath : Str :=
  String.toList "../lighthouse-core/report/html/html-report-assets.js"

/-- `require.resolve('../lighthouse-core/lib/url-shim.js')`, modelled by its
module specifier. -/
def urlShimPath : Str := String.toList "../lighthouse-core/lib/url-shim.js"

/-- The publisher-ads plugin package name. -/
def pubAdsPkg : Str := String.toList "lighthouse-plugin-publisher-ads"

/-- One configuration operation applied to the browserify session. -/
inductive BundleOp
  | plugin (name : Str)
  | transform (name : Str)
  | ignore (target : Str)
  | require (target : Str) (expose : Option Str)
deriving DecidableEq, Repr

/-- The ordered sequence of session operations issued by `browserifyFile`
(lines 56-114): banner plugin and the two transforms, the fixed ignores, the
`cri.js` ignore, the conditional report-asset and locale ignores, the audit
and gatherer require/expose registrations, the conditional publisher-ads
requires, and finally the `url` shim registration. -/
def browserifyOps (reg : Registry) (entry : Str) : List BundleOp :=
  [BundleOp.plugin (String.toList "browserify-banner"),
   BundleOp.transform (String.toList "@wardpeet/brfs"),
   BundleOp.transform (String.toList "package-json-versionify")]
  ++ fixedIgnores.map BundleOp.ignore
  ++ [BundleOp.ignore criPath]
  ++ (if isDevtools entry || isLightrider entry then [BundleOp.ignore htmlReportAssetsPath]
      else [])
  ++ (if isDevtools entry then reg.locales.map BundleOp.ignore else [])
  ++ (audits reg).map
       (fun audit => BundleOp.require audit
         (some (replaceFirstL corePath (String.toList "../") audit)))
  ++ (gatherers reg).map
       (fun gatherer => BundleOp.require gatherer
         (some (replaceFirstL driverPath (String.toList "../gather/") gatherer)))
  ++ (if isDevtools entry then
        BundleOp.require pubAdsPkg none ::
          reg.pubAdsAudits.map (fun pubAdAudit => BundleOp.require pubAdAudit none)
      else [])
  ++ [BundleOp.require urlShimPath (some (String.toList "url"))]

/-- The targets of the `ignore` operations of a session, in order. -/
def ignoreTargets : List BundleOp → List Str
  | [] => []
  | BundleOp.ignore t :: rest => t :: ignoreTargets rest
  | _ :: rest => ignoreTargets rest

/-- The targets of the `require` operations of a session, in order. -/
def requireTargets : List BundleOp → List Str
  | [] => []
  | BundleOp.require t _ :: rest => t :: requireTargets rest
  | _ :: rest => requireTargets rest

/-- `true` iff the operation list contains no `require`. -/
def noRequires : List BundleOp → Bool
  | [] => true
  | BundleOp.require _ _ :: _ => false
  | _ :: rest => noRequires rest

/-- `true` iff the operation list contains no `ignore`. -/
def noIgnores : List BundleOp → Bool
  | [] => true
  | BundleOp.ignore _ :: _ => false
  | _ :: rest => noIgnores rest

/-- `true` iff every `ignore` in the list occurs before every `require`. -/
def ignoresBeforeRequires : List BundleOp → Bool
  | [] => true
  | BundleOp.require _ _ :: rest => noIgnores rest
  | _ :: rest => ignoresBeforeRequires rest

/-! ## Promise wiring of `browserifyFile` (lines 116-129)

The returned promise installs exactly two handlers, both on the destination
write stream: `writeStream.on('finish', resolve)` and
`writeStream.on('error', reject)`.  No handler is attached to the bundler
stream or to the source-map extraction stream, and node's `pipe` does not
forward `error` events downstream, so only write-stream events can settle the
promise.  We model the promise as a fold over the sequence of stream events:
the first event that has a registered handler settles it. -/

/-- The three streams involved in the final pipeline:
`bundle.bundle()`, `exorcist(...)`, and `fs.createWriteStream(distPath)`. -/
inductive StreamSrc
  | bundle
  | exorcistMap
  | writeDest
deriving DecidableEq, Repr

/-- A stream event observed while the pipeline runs. -/
inductive StreamEvent
  | finish (src : StreamSrc)
  | error (src : StreamSrc) (msg : Str)
deriving DecidableEq, Repr

/-- The possible states of the promise returned by `browserifyFile`. -/
inductive Settle
  | pending
  | resolved
  | rejected (msg : Str)
deriving DecidableEq, Repr

/-- The handler table of lines 122-123: `finish` on the write stream resolves,
`error` on the write stream rejects; every other event has no handler. -/
def handleEvent : StreamEvent → Option Settle
  | StreamEvent.finish StreamSrc.writeDest => some Settle.resolved
  | StreamEvent.error StreamSrc.writeDest m => some (Settle.rejected m)
  | _ => none

/-- The settlement of the promise after a sequence of stream events: the
first event with a registered handler settles it (a promise settles once). -/
def promiseOutcome : List StreamEvent → Settle
  | [] => Settle.pending
  | e :: rest =>
    match handleEvent e with
    | some s => s
    | none => promiseOutcome rest

/-- The stream a given event was emitted on. -/
def eventSrc : StreamEvent → StreamSrc
  | StreamEvent.finish src => src
  | StreamEvent.error src _ => src

/-! ## Effect skeleton of `browserifyFile` and `build`

`browserifyFile` performs its external effects in a fixed order: the banner
plugin's configuration reads `../package.json` (line 58) while the session is
being configured, then — after the pure session configuration — `bundle()` is
called, the destination directory is created (line 119), the destination
write stream is opened (line 121) and the map writer is attached (line 127).
`build` then runs `minifyScript` on the produced file.  Each fallible
external call is modelled by a flag in `Env`; a failure throws, cutting the
effect sequence at that point. -/

/-- An observable external effect of the pipeline. -/
inductive Effect
  | readPkgJson
  | mkdirDest (dir : Str)
  | openWriteStream (p : Str)
  | openMapWrite (p : Str)
  | minifyRead (p : Str)
  | minifyWrite (p : Str)
deriving DecidableEq, Repr

/-- Success/failure of each external dependency of one build run. -/
structure Env where
  pkgJsonOk : Bool
  mkdirOk : Bool
  bundleOk : Bool
  writeOk : Bool
  minifyOk : Bool

/-- Outcome of an async pipeline stage: fulfilled, rejected with an error, or
never settled (the promise hangs). -/
inductive RunOutcome
  | ok
  | errored (msg : Str)
  | hung
deriving DecidableEq, Repr

/-- Error message for a failed `require('../package.json')`. -/
def pkgJsonErr : Str := String.toList "Cannot find module ../package.json"

/-- Error message for a failed `mkdir`. -/
def mkdirErr : Str := String.toList "EACCES: mkdir failed"

/-- Error message for a write-stream error. -/
def writeErr : Str := String.toList "EIO: write failed"

/-- Error message for a terser failure. -/
def minifyErr : Str := String.toList "terser error"

/-- `path.dirname(p)`: everything before the last `/` (the destination paths
fed to the script always contain a separator). -/
def dirname (p : Str) : Str :=
  (List.dropWhile (fun c => c != '/') p.reverse).reverse.dropLast

/-- `${filePath}.map` -/
def mapPath (p : Str) : Str := p ++ String.toList ".map"

/-- The effect trace and outcome of `browserifyFile(entryPath, distPath)`:
reading `package.json` happens during session configuration, before the
directory is created and before any write stream is opened; a throw at any
point cuts the trace there.  If the destination write stream errors the
promise rejects; if only the bundler stream errors, no handler fires and the
promise never settles (see `handleEvent`). -/
def browserifyFileRun (env : Env) (dist : Str) : List Effect × RunOutcome :=
  if env.pkgJsonOk = false then
    ([Effect.readPkgJson], RunOutcome.errored pkgJsonErr)
  else if env.mkdirOk = false then
    ([Effect.readPkgJson, Effect.mkdirDest (dirname dist)], RunOutcome.errored mkdirErr)
  else
    ([Effect.readPkgJson, Effect.mkdirDest (dirname dist),
      Effect.openWriteStream dist, Effect.openMapWrite (mapPath dist)],
     if env.writeOk = false then RunOutcome.errored writeErr
     else if env.bundleOk = false then RunOutcome.hung
     else RunOutcome.ok)

/-- The effect trace and outcome of `build(entryPath, distPath)`:
`browserifyFile` followed — only on success — by `minifyScript(distPath)`. -/
def buildRun (env : Env) (dist : Str) : List Effect × RunOutcome :=
  match browserifyFileRun env dist with
  | (tr, RunOutcome.ok) =>
    if env.minifyOk = false then
      (tr ++ [Effect.minifyRead dist, Effect.minifyRead (mapPath dist)],
       RunOutcome.errored minifyErr)
    else
      (tr ++ [Effect.minifyRead dist, Effect.minifyRead (mapPath dist),
              Effect.minifyWrite dist, Effect.minifyWrite (mapPath dist)],
       RunOutcome.ok)
  | (tr, out) => (tr, out)

/-! ## `minifyScript` (lines 136-162)

The filesystem is an association list from paths to file contents; a write
prepends (later writes shadow earlier ones for `fsRead`).  The terser
minifier is an explicit functional parameter: `minifyScript` is proved
correct for every minifier behaviour.  `JSON.parse` of the map file is
abstracted away (the map content is passed through as text); a missing file
makes the corresponding `readFileSync` throw. -/

/-- An association-list filesystem: path to contents. -/
abbrev FS := List (Str × Str)

/-- `fs.readFileSync`: the contents at `p`, or a thrown `ENOENT` error. -/
def fsRead (fs : FS) (p : Str) : Except Str Str :=
  match List.lookup p fs with
  | some c => Except.ok c
  | none => Except.error (String.toList "ENOENT: " ++ p)

/-- `fs.writeFileSync`: record the new contents at `p`. -/
def fsWrite (fs : FS) (p c : Str) : FS := (p, c) :: fs

/-- The `output` options of the terser call: `comments: /^!/` and
`max_line_len: 1000`. -/
structure OutputOptions where
  commentsPattern : Str
  max_line_len : Nat
deriving DecidableEq, Repr

/-- The `mangle` options of the terser call. -/
structure MangleOptions where
  reserved : List Str
deriving DecidableEq, Repr

/-- The `sourceMap` options of the terser call. -/
structure SourceMapOptions where
  content : Str
  url : Str
deriving DecidableEq, Repr

/-- The full option object passed to `terser.minify`. -/
structure MinifyOptions where
  output : OutputOptions
  keep_classnames : Bool
  keep_fnames : Bool
  mangle : MangleOptions
  sourceMap : SourceMapOptions
deriving DecidableEq, Repr

/-- The option object built at lines 138-155: fixed output settings, class
and function names kept, the fixed reserved-identifier list, and the source
map taken from `${filePath}.map` with `url: path.basename(`${filePath}.map`)`. -/
def minifyOptions (filePath mapContent : Str) : MinifyOptions :=
  { output := { commentsPattern := String.toList "^!", max_line_len := 1000 }
    keep_classnames := true
    keep_fnames := true
    mangle := { reserved := [String.toList "ChromeProtocol", String.toList "mkdirp",
                             String.toList "rimraf", String.toList "fs"] }
    sourceMap := { content := mapContent, url := basename (mapPath filePath) } }

/-- The build-independent part of the minification policy: the two
name-keeping toggles and the reserved-identifier list. -/
def minifyPolicy (opts : MinifyOptions) : Bool × Bool × List Str :=
  (opts.keep_fnames, opts.keep_classnames, opts.mangle.reserved)

/-- The result object returned by `terser.minify`. -/
structure TerserResult where
  error : Option Str
  code : Str
  map : Str

/-- `minifyScript(filePath)`: read the bundle and its map, run the minifier,
throw `result.error` if set, else write code and map back in place.  Returns
the filesystem after the call together with the thrown error, if any; a
throw leaves the filesystem untouched. -/
def minifyScript (terserMinify : Str → MinifyOptions → TerserResult)
    (fs : FS) (filePath : Str) : FS × Option Str :=
  match fsRead fs filePath with
  | Except.error e => (fs, some e)
  | Except.ok codeText =>
    match fsRead fs (mapPath filePath) with
    | Except.error e => (fs, some e)
    | Except.ok mapText =>
      let result := terserMinify codeText (minifyOptions filePath mapText)
      match result.error with
      | some e => (fs, some e)
      | none =>
        (fsWrite (fsWrite fs filePath result.code) (mapPath filePath) result.map, none)

/-! ## `cli` (lines 178-183)

`cli(argv)` drops the first two `process.argv` entries (interpreter and
script path), resolves the remaining arguments against the working directory,
destructures the first two, and calls `build` WITHOUT awaiting it: the
promise `cli` returns is fulfilled regardless of `build`'s outcome, and a
`build` rejection is left unhandled. -/

/-- Node's `path.resolve(cwd, p)` restricted to the behaviour the script
relies on: an absolute `p` is returned as is, otherwise `p` is joined onto
`cwd` (no `.`/`..` normalisation is modelled — the script performs none
itself). -/
def jsPathResolve (cwd p : Str) : Str :=
  if p.head? = some '/' then p else cwd ++ '/' :: p

/-- What one `cli` invocation did: the two arguments `build` was called with
(`none` models JavaScript `undefined` from destructuring a short array), the
settlement of the promise `cli` itself returns, and the rejection of the
un-awaited `build` call, which nothing handles. -/
structure CliResult where
  calledEntry : Option Str
  calledDist : Option Str
  cliOutcome : Except Str Unit
  unhandledRejection : Option Str
deriving Repr

/-- `cli(argv)`, parametrised by the behaviour of `build` (as a function from
the two resolved paths to the settlement of its promise). -/
def cli (buildFn : Option Str → Option Str → Except Str Unit)
    (cwd : Str) (argv : List Str) : CliResult :=
  let resolved := (argv.drop 2).map (jsPathResolve cwd)
  let entryPath := resolved.get? 0
  let distPath := resolved.get? 1
  { calledEntry := entryPath
    calledDist := distPath
    cliOutcome := Except.ok ()
    unhandledRejection :=
      match buildFn entryPath distPath with
      | Except.ok _ => none
      | Except.error e => some e }

/-! ## Helper lemmas about session-operation lists -/

theorem noIgnores_append (a b : List BundleOp) :
    noIgnores (a ++ b) = (noIgnores a && noIgnores b) := by
  induction a with
  | nil => simp [noIgnores]
  | cons op rest ih => cases op <;> simp [noIgnores, ih]

theorem noRequires_append (a b : List BundleOp) :
    noRequires (a ++ b) = (noRequires a && noRequires b) := by
  induction a with
  | nil => simp [noRequires]
  | cons op rest ih => cases op <;> simp [noRequires, ih]

theorem noIgnores_map_req (l : List Str) (e : Str → Option Str) :
    noIgnores (l.map (fun t => BundleOp.require t (e t))) = true := by
  induction l with
  | nil => rfl
  | cons x xs ih => simpa [noIgnores] using ih

theorem noRequires_map_ignore (l : List Str) :
    noRequires (l.map BundleOp.ignore) = true := by
  induction l with
  | nil => rfl
  | cons x xs ih => simpa [noRequires] using ih

theorem ibr_of_noIgnores (l : List BundleOp) (h : noIgnores l = true) :
    ignoresBeforeRequires l = true := by
  induction l with
  | nil => rfl
  | cons op rest ih => cases op <;> simp_all [noIgnores, ignoresBeforeRequires]

theorem ibr_append (a b : List BundleOp) (ha : noRequires a = true) :
    ignoresBeforeRequires (a ++ b) = ignoresBeforeRequires b := by
  induction a with
  | nil => rfl
  | cons op rest ih => cases op <;> simp_all [noRequires, ignoresBeforeRequires]

theorem ibr_split (a b : List BundleOp) (ha : noRequires a = true)
    (hb : noIgnores b = true) : ignoresBeforeRequires (a ++ b) = true := by
  rw [ibr_append a b ha]
  exact ibr_of_noIgnores b hb

theorem ignoreTargets_append (a b : List BundleOp) :
    ignoreTargets (a ++ b) = ignoreTargets a ++ ignoreTargets b := by
  induction a with
  | nil => rfl
  | cons op rest ih => cases op <;> simp [ignoreTargets, ih]

theorem requireTargets_append (a b : List BundleOp) :
    requireTargets (a ++ b) = requireTargets a ++ requireTargets b := by
  induction a with
  | nil => rfl
  | cons op rest ih => cases op <;> simp [requireTargets, ih]

theorem ignoreTargets_map_ignore (l : List Str) :
    ignoreTargets (l.map BundleOp.ignore) = l := by
  induction l with
  | nil => rfl
  | cons x xs ih => simp [ignoreTargets, ih]

theorem ignoreTargets_map_req (l : List Str) (e : Str → Option Str) :
    ignoreTargets (l.map (fun t => BundleOp.require t (e t))) = [] := by
  induction l with
  | nil => rfl
  | cons x xs ih => simpa [ignoreTargets] using ih

theorem requireTargets_map_req (l : List Str) (e : Str → Option Str) :
    requireTargets (l.map (fun t => BundleOp.require t (e t))) = l := by
  induction l with
  | nil => rfl
  | cons x xs ih => simp [requireTargets, ih]

theorem requireTargets_map_ignore (l : List Str) :
    requireTargets (l.map BundleOp.ignore) = [] := by
  induction l with
  | nil => rfl
  | cons x xs ih => simpa [requireTargets] using ih

theorem mem_ignoreTargets_of_mem (t : Str) (l : List BundleOp)
    (h : BundleOp.ignore t ∈ l) : t ∈ ignoreTargets l := by
  induction l with
  | nil => cases h
  | cons op rest ih =>
    rcases List.mem_cons.mp h with h1 | h2
    · rw [← h1]
      simp [ignoreTargets]
    · cases op <;> simp [ignoreTargets, ih h2]

/-! ## Claim theorems -/

/-- C7: within a single `browserifyFile` invocation, every exclusion rule
(`ignore`) is applied to the bundling session before any inclusion
registration (`require`/expose): in the ordered operation list of any build,
every `ignore` precedes every `require`. -/
theorem c7_ignores_precede_requires (reg : Registry) (entry : Str) :
    ignoresBeforeRequires (browserifyOps reg entry) = true := by
  have hP : noIgnores (reg.pubAdsAudits.map
      (fun pubAdAudit => BundleOp.require pubAdAudit none)) = true :=
    noIgnores_map_req reg.pubAdsAudits (fun _ => none)
  have hsplit : browserifyOps reg entry =
      ([BundleOp.plugin (String.toList "browserify-banner"),
        BundleOp.transform (String.toList "@wardpeet/brfs"),
        BundleOp.transform (String.toList "package-json-versionify")]
       ++ fixedIgnores.map BundleOp.ignore
       ++ [BundleOp.ignore criPath]
       ++ (if isDevtools entry || isLightrider entry then
             [BundleOp.ignore htmlReportAssetsPath] else [])
       ++ (if isDevtools entry then reg.locales.map BundleOp.ignore else []))
      ++ ((audits reg).map
            (fun audit => BundleOp.require audit
              (some (replaceFirstL corePath (String.toList "../") audit)))
          ++ (gatherers reg).map
            (fun gatherer => BundleOp.require gatherer
              (some (replaceFirstL driverPath (String.toList "../gather/") gatherer)))
          ++ (if isDevtools entry then
                BundleOp.require pubAdsPkg none ::
                  reg.pubAdsAudits.map (fun pubAdAudit => BundleOp.require pubAdAudit none)
              else [])
          ++ [BundleOp.require urlShimPath (some (String.toList "url"))]) := by
    simp [browserifyOps, List.append_assoc]
  rw [hsplit]
  apply ibr_split
  · cases hd : isDevtools entry <;> cases hlr : isLightrider entry <;>
      simp [hd, hlr, noRequires_append, noRequires_map_ignore, noRequires, fixedIgnores]
  · cases hd : isDevtools entry <;>
      simp [hd, noIgnores_append, noIgnores, hP] <;>
      exact ⟨noIgnores_map_req _ _, noIgnores_map_req _ _⟩

/-- C2: for every entry path whose basename contains "devtools", the
assembled session ignores the report-template asset module and every locale
module, and registers the publisher-ads plugin package together with each of
its audit modules. -/
theorem c2_devtools_policy (reg : Registry) (entry : Str)
    (h : isDevtools entry = true) :
    BundleOp.ignore htmlReportAssetsPath ∈ browserifyOps reg entry
    ∧ (∀ l ∈ reg.locales, BundleOp.ignore l ∈ browserifyOps reg entry)
    ∧ BundleOp.require pubAdsPkg none ∈ browserifyOps reg entry
    ∧ ∀ p ∈ reg.pubAdsAudits, BundleOp.require p none ∈ browserifyOps reg entry := by
  refine ⟨?_, ?_, ?_, ?_⟩
  · simp [browserifyOps, h]
  · intro l hl
    simp [browserifyOps, h, hl]
  · simp [browserifyOps, h]
  · intro p hp
    simp [browserifyOps, h, hp]

/-- C4: for every entry path whose basename contains neither "devtools" nor
"lightrider", the session ignores exactly the fixed always-excluded list plus
the `cri.js` connection, does not ignore the report-template module, and its
registrations are exactly the audits, the gatherers, and the `url` shim — in
particular no bare (publisher-ads style, expose-free) registration occurs. -/
theorem c4_default_policy (reg : Registry) (entry : Str)
    (hd : isDevtools entry = false) (hl : isLightrider entry = false) :
    ignoreTargets (browserifyOps reg entry) = fixedIgnores ++ [criPath]
    ∧ BundleOp.ignore htmlReportAssetsPath ∉ browserifyOps reg entry
    ∧ requireTargets (browserifyOps reg entry) = audits reg ++ gatherers reg ++ [urlShimPath]
    ∧ ∀ t, BundleOp.require t none ∉ browserifyOps reg entry := by
  have h1 : ignoreTargets (browserifyOps reg entry) = fixedIgnores ++ [criPath] := by
    simp [browserifyOps, hd, hl, ignoreTargets_append, ignoreTargets_map_ignore,
      ignoreTargets_map_req, ignoreTargets, fixedIgnores]
  refine ⟨h1, ?_, ?_, ?_⟩
  · intro hmem
    have h2 := mem_ignoreTargets_of_mem _ _ hmem
    rw [h1] at h2
    exact absurd h2 (by decide)
  · simp [browserifyOps, hd, hl, requireTargets_append, requireTargets_map_ignore,
      requireTargets_map_req, requireTargets]
  · intro t hmem
    simp [browserifyOps, hd, hl] at hmem

/-! ## Lemmas about JavaScript string replacement -/

theorem replaceFirstL_head (pat rep s : Str) (hne : s ≠ [])
    (h : List.isPrefixOf pat s = true) :
    replaceFirstL pat rep s = rep ++ List.drop pat.length s := by
  cases s with
  | nil => exact absurd rfl hne
  | cons c rest => simp [replaceFirstL, h]

theorem isPrefixOf_append_self (a t : Str) :
    List.isPrefixOf a (a ++ t) = true := by
  induction a with
  | nil => simp [List.isPrefixOf]
  | cons c cs ih => simp [List.isPrefixOf, ih]

theorem replaceFirstL_strip (pat rep tail : Str) (hne : pat ≠ []) :
    replaceFirstL pat rep (pat ++ tail) = rep ++ tail := by
  have h1 : pat ++ tail ≠ [] := by
    cases pat with
    | nil => exact absurd rfl hne
    | cons c cs => simp
  rw [replaceFirstL_head pat rep (pat ++ tail) h1 (isPrefixOf_append_self pat tail)]
  rw [List.drop_left]

/-- The on-disk audit path built by the registry resolver, split at the
`./lighthouse-core/` prefix. -/
theorem auditPath_split (f : Str) :
    String.toList "./lighthouse-core/audits/" ++ dropJsSuffix f
    = corePath ++ (String.toList "audits/" ++ dropJsSuffix f) := by
  rw [← List.append_assoc]
  rfl

/-- The on-disk gatherer path built by the registry resolver, split at the
`./lighthouse-core/gather/` prefix. -/
theorem gathererPath_split (f : Str) :
    String.toList "./lighthouse-core/gather/gatherers/" ++ dropJsSuffix f
    = driverPath ++ (String.toList "gatherers/" ++ dropJsSuffix f) := by
  rw [← List.append_assoc]
  rfl

/-- Deriving an audit's expose path: replacing `./lighthouse-core/` with
`../` maps the on-disk path to `../audits/...`. -/
theorem audit_expose_eq (f : Str) :
    replaceFirstL corePath (String.toList "../")
      (String.toList "./lighthouse-core/audits/" ++ dropJsSuffix f)
    = String.toList "../audits/" ++ dropJsSuffix f := by
  rw [auditPath_split, replaceFirstL_strip corePath _ _ (by decide), ← List.append_assoc]
  rfl

/-- Deriving a gatherer's expose path: replacing `./lighthouse-core/gather/`
with `../gather/` maps the on-disk path to `../gather/gatherers/...`. -/
theorem gatherer_expose_eq (f : Str) :
    replaceFirstL driverPath (String.toList "../gather/")
      (String.toList "./lighthouse-core/gather/gatherers/" ++ dropJsSuffix f)
    = String.toList "../gather/gatherers/" ++ dropJsSuffix f := by
  rw [gathererPath_split, replaceFirstL_strip driverPath _ _ (by decide), ← List.append_assoc]
  rfl

/-- C8: every audit's logical load path is obtained by replacing the on-disk
prefix `./lighthouse-core/` with `../` (yielding `../audits/...`), every
gatherer's by replacing `./lighthouse-core/gather/` with `../gather/`
(yielding `../gather/gatherers/...`), and every audit and gatherer of the
registry is registered in the session under exactly that derived path. -/
theorem c8_logical_load_paths (reg : Registry) (entry : Str) (f : Str) :
    (f ∈ reg.auditFiles →
      replaceFirstL corePath (String.toList "../")
          (String.toList "./lighthouse-core/audits/" ++ dropJsSuffix f)
        = String.toList "../audits/" ++ dropJsSuffix f
      ∧ BundleOp.require (String.toList "./lighthouse-core/audits/" ++ dropJsSuffix f)
          (some (String.toList "../audits/" ++ dropJsSuffix f)) ∈ browserifyOps reg entry)
    ∧ (f ∈ reg.gathererFiles →
      replaceFirstL driverPath (String.toList "../gather/")
          (String.toList "./lighthouse-core/gather/gatherers/" ++ dropJsSuffix f)
        = String.toList "../gather/gatherers/" ++ dropJsSuffix f
      ∧ BundleOp.require
          (String.toList "./lighthouse-core/gather/gatherers/" ++ dropJsSuffix f)
          (some (String.toList "../gather/gatherers/" ++ dropJsSuffix f))
          ∈ browserifyOps reg entry) := by
  constructor
  · intro hf
    refine ⟨audit_expose_eq f, ?_⟩
    have hmem : String.toList "./lighthouse-core/audits/" ++ dropJsSuffix f ∈ audits reg :=
      List.mem_map.mpr ⟨f, hf, rfl⟩
    have h3 : BundleOp.require (String.toList "./lighthouse-core/audits/" ++ dropJsSuffix f)
        (some (replaceFirstL corePath (String.toList "../")
          (String.toList "./lighthouse-core/audits/" ++ dropJsSuffix f)))
        ∈ (audits reg).map (fun audit => BundleOp.require audit
            (some (replaceFirstL corePath (String.toList "../") audit))) :=
      List.mem_map_of_mem (fun audit => BundleOp.require audit
        (some (replaceFirstL corePath (String.toList "../") audit))) hmem
    rw [audit_expose_eq f] at h3
    simp only [browserifyOps, List.append_assoc, List.mem_append]
    tauto
  · intro hf
    refine ⟨gatherer_expose_eq f, ?_⟩
    have hmem : String.toList "./lighthouse-core/gather/gatherers/" ++ dropJsSuffix f
        ∈ gatherers reg :=
      List.mem_map.mpr ⟨f, hf, rfl⟩
    have h3 : BundleOp.require
        (String.toList "./lighthouse-core/gather/gatherers/" ++ dropJsSuffix f)
        (some (replaceFirstL driverPath (String.toList "../gather/")
          (String.toList "./lighthouse-core/gather/gatherers/" ++ dropJsSuffix f)))
        ∈ (gatherers reg).map (fun gatherer => BundleOp.require gatherer
            (some (replaceFirstL driverPath (String.toList "../gather/") gatherer))) :=
      List.mem_map_of_mem (fun gatherer => BundleOp.require gatherer
        (some (replaceFirstL driverPath (String.toList "../gather/") gatherer))) hmem
    rw [gatherer_expose_eq f] at h3
    simp only [browserifyOps, List.append_assoc, List.mem_append]
    tauto

/-! ## Lemmas about the promise wiring -/

theorem handleEvent_resolved (e : StreamEvent)
    (h : handleEvent e = some Settle.resolved) :
    e = StreamEvent.finish StreamSrc.writeDest := by
  cases e with
  | finish src => cases src <;> simp_all [handleEvent]
  | error src m => cases src <;> simp_all [handleEvent]

theorem handleEvent_rejected (e : StreamEvent) (m : Str)
    (h : handleEvent e = some (Settle.rejected m)) :
    e = StreamEvent.error StreamSrc.writeDest m := by
  cases e with
  | finish src => cases src <;> simp_all [handleEvent]
  | error src m2 => cases src <;> simp_all [handleEvent]

theorem settle_event_mem (evs : List StreamEvent) (s : Settle)
    (h : promiseOutcome evs = s) (hs : s ≠ Settle.pending) :
    ∃ e ∈ evs, handleEvent e = some s := by
  induction evs with
  | nil => exact absurd h.symm hs
  | cons e rest ih =>
    cases he : handleEvent e with
    | some s2 =>
      have h2 : s2 = s := by simpa [promiseOutcome, he] using h
      exact ⟨e, by simp, by rw [he, h2]⟩
    | none =>
      have h2 : promiseOutcome rest = s := by simpa [promiseOutcome, he] using h
      obtain ⟨e2, hm, h3⟩ := ih h2
      exact ⟨e2, by simp [hm], h3⟩

theorem handleEvent_none_of_src (e : StreamEvent)
    (h : eventSrc e ≠ StreamSrc.writeDest) : handleEvent e = none := by
  cases e with
  | finish src => cases src <;> simp_all [eventSrc, handleEvent]
  | error src m => cases src <;> simp_all [eventSrc, handleEvent]

theorem pending_of_unhandled (evs : List StreamEvent)
    (h : ∀ e ∈ evs, eventSrc e ≠ StreamSrc.writeDest) :
    promiseOutcome evs = Settle.pending := by
  induction evs with
  | nil => rfl
  | cons e rest ih =>
    have he : handleEvent e = none := handleEvent_none_of_src e (h e (by simp))
    simpa [promiseOutcome, he] using ih (fun e2 hm => h e2 (by simp [hm]))

theorem rejected_of_first_write_error (pre rest : List StreamEvent) (m : Str)
    (h : ∀ e ∈ pre, eventSrc e ≠ StreamSrc.writeDest) :
    promiseOutcome (pre ++ StreamEvent.error StreamSrc.writeDest m :: rest)
      = Settle.rejected m := by
  induction pre with
  | nil => rfl
  | cons e pre2 ih =>
    have he : handleEvent e = none := handleEvent_none_of_src e (h e (by simp))
    simpa [promiseOutcome, he] using ih (fun e2 hm => h e2 (by simp [hm]))

/-- C1 counterexample: after an error event on the bundler stream (and no
write-stream event), the promise returned by `browserifyFile` is still
pending — it has not rejected with that stream error, contrary to the claim
that any stream error from the bundler stream rejects the promise. -/
theorem c1_counterexample :
    promiseOutcome [StreamEvent.error StreamSrc.bundle (String.toList "bundler failure")]
      = Settle.pending
    ∧ promiseOutcome [StreamEvent.error StreamSrc.bundle (String.toList "bundler failure")]
      ≠ Settle.rejected (String.toList "bundler failure") := by
  decide

/-- C1 (amended): the promise returned by `browserifyFile` resolves only
once the destination write stream has emitted `finish`, and rejects on any
`error` event from the destination write stream: whenever such an error is
the first write-stream event, the promise rejects with exactly that error.
Events on the other streams (in particular bundler-stream errors) have no
handler, so if no write-stream event occurs the promise never settles. -/
theorem c1_promise_settlement (evs : List StreamEvent) :
    (promiseOutcome evs = Settle.resolved →
      StreamEvent.finish StreamSrc.writeDest ∈ evs)
    ∧ (∀ m, promiseOutcome evs = Settle.rejected m →
        StreamEvent.error StreamSrc.writeDest m ∈ evs)
    ∧ ((∀ e ∈ evs, eventSrc e ≠ StreamSrc.writeDest) →
        promiseOutcome evs = Settle.pending)
    ∧ (∀ pre rest m,
        evs = pre ++ StreamEvent.error StreamSrc.writeDest m :: rest →
        (∀ e ∈ pre, eventSrc e ≠ StreamSrc.writeDest) →
        promiseOutcome evs = Settle.rejected m) := by
  refine ⟨?_, ?_, pending_of_unhandled evs, ?_⟩
  · intro h
    obtain ⟨e, hm, he⟩ := settle_event_mem evs Settle.resolved h (by decide)
    exact handleEvent_resolved e he ▸ hm
  · intro m h
    obtain ⟨e, hm, he⟩ := settle_event_mem evs (Settle.rejected m) h (by simp)
    exact handleEvent_rejected e m he ▸ hm
  · intro pre rest m heq hpre
    rw [heq]
    exact rejected_of_first_write_error pre rest m hpre

/-- C1 witness: at the concrete event sequence in which a bundler-stream
error precedes a write-stream error, the promise rejects with the
write-stream error. -/
theorem c1_promise_settlement_witness :
    promiseOutcome [StreamEvent.error StreamSrc.bundle (String.toList "early"),
        StreamEvent.error StreamSrc.writeDest (String.toList "boom")]
      = Settle.rejected (String.toList "boom") :=
  (c1_promise_settlement [StreamEvent.error StreamSrc.bundle (String.toList "early"),
      StreamEvent.error StreamSrc.writeDest (String.toList "boom")]).2.2.2
    [StreamEvent.error StreamSrc.bundle (String.toList "early")] []
    (String.toList "boom") rfl (by decide)

/-- C3: if reading `package.json` fails, `build` fails with that error
before any destination effect happens: the effect trace is exactly the
failed read, so no write stream to the destination is opened and neither
the bundle file nor its map file is written. -/
theorem c3_pkg_read_failure (env : Env) (dist : Str) (h : env.pkgJsonOk = false) :
    buildRun env dist = ([Effect.readPkgJson], RunOutcome.errored pkgJsonErr)
    ∧ ∀ p, Effect.openWriteStream p ∉ (buildRun env dist).1
      ∧ Effect.openMapWrite p ∉ (buildRun env dist).1
      ∧ Effect.minifyWrite p ∉ (buildRun env dist).1 := by
  have hb : browserifyFileRun env dist
      = ([Effect.readPkgJson], RunOutcome.errored pkgJsonErr) := by
    simp [browserifyFileRun, h]
  have hbuild : buildRun env dist
      = ([Effect.readPkgJson], RunOutcome.errored pkgJsonErr) := by
    simp [buildRun, hb]
  refine ⟨hbuild, ?_⟩
  intro p
  rw [hbuild]
  simp

/-- C3 witness: with a failing package-descriptor read and every other
dependency healthy, the concrete build run stops at the failed read. -/
theorem c3_pkg_read_failure_witness :
    buildRun ⟨false, true, true, true, true⟩ (String.toList "/out/bundle.js")
      = ([Effect.readPkgJson], RunOutcome.errored pkgJsonErr) :=
  (c3_pkg_read_failure ⟨false, true, true, true, true⟩
    (String.toList "/out/bundle.js") rfl).1

/-- C5: for every minifier behaviour and every filesystem in which the bundle
and its map are readable, if the minifier reports an error then
`minifyScript` throws exactly that error and the filesystem is unchanged
(neither path is written); otherwise it overwrites the file with the
minified code and the map path with the updated map. -/
theorem c5_minify_error_or_write (terserMinify : Str → MinifyOptions → TerserResult)
    (fsys : FS) (p code mapc : Str)
    (h1 : fsRead fsys p = Except.ok code)
    (h2 : fsRead fsys (mapPath p) = Except.ok mapc) :
    (∀ e, (terserMinify code (minifyOptions p mapc)).error = some e →
      minifyScript terserMinify fsys p = (fsys, some e))
    ∧ ((terserMinify code (minifyOptions p mapc)).error = none →
      minifyScript terserMinify fsys p =
        (fsWrite (fsWrite fsys p (terserMinify code (minifyOptions p mapc)).code)
          (mapPath p) (terserMinify code (minifyOptions p mapc)).map, none)) := by
  constructor
  · intro e he
    simp [minifyScript, h1, h2, he]
  · intro hn
    simp [minifyScript, h1, h2, hn]

/-- C5 witness: a successful minifier run on a concrete two-file filesystem
writes back the minified code and map. -/
theorem c5_minify_error_or_write_witness :
    minifyScript (fun _ _ => ⟨none, String.toList "mincode", String.toList "minmap"⟩)
      [(String.toList "/d/b.js", String.toList "code"),
       (String.toList "/d/b.js.map", String.toList "map1")]
      (String.toList "/d/b.js")
    = (fsWrite (fsWrite
        [(String.toList "/d/b.js", String.toList "code"),
         (String.toList "/d/b.js.map", String.toList "map1")]
        (String.toList "/d/b.js") (String.toList "mincode"))
        (mapPath (String.toList "/d/b.js")) (String.toList "minmap"), none) :=
  (c5_minify_error_or_write
    (fun _ _ => ⟨none, String.toList "mincode", String.toList "minmap"⟩)
    [(String.toList "/d/b.js", String.toList "code"),
     (String.toList "/d/b.js.map", String.toList "map1")]
    (String.toList "/d/b.js") (String.toList "code") (String.toList "map1")
    rfl rfl).2 rfl

/-- C6: the minification policy is a fixed constant: for every input file
and map content, function and class names are kept and exactly the four
identifiers `ChromeProtocol`, `mkdirp`, `rimraf`, `fs` are reserved from
renaming; no part of the policy depends on the file being minified. -/
theorem c6_static_minify_policy (p m p2 m2 : Str) :
    minifyPolicy (minifyOptions p m)
      = (true, true, [String.toList "ChromeProtocol", String.toList "mkdirp",
                      String.toList "rimraf", String.toList "fs"])
    ∧ minifyPolicy (minifyOptions p m) = minifyPolicy (minifyOptions p2 m2) :=
  ⟨rfl, rfl⟩

/-- C10: if reading the bundle file fails, or the bundle reads but the map
file fails, `minifyScript` propagates the read error with the filesystem
unchanged, and its result does not depend on the minifier at all (the
minifier is never consulted). -/
theorem c10_read_failure (t1 t2 : Str → MinifyOptions → TerserResult)
    (fsys : FS) (p e : Str)
    (h : fsRead fsys p = Except.error e
      ∨ ∃ c, fsRead fsys p = Except.ok c ∧ fsRead fsys (mapPath p) = Except.error e) :
    minifyScript t1 fsys p = (fsys, some e)
    ∧ minifyScript t1 fsys p = minifyScript t2 fsys p := by
  rcases h with h | ⟨c, hc, hm⟩
  · constructor <;> simp [minifyScript, h]
  · constructor <;> simp [minifyScript, hc, hm]

/-- C10 witness: on an empty filesystem the bundle read fails, the error
propagates with the filesystem unchanged, and two different minifiers give
the same result. -/
theorem c10_read_failure_witness :
    minifyScript (fun _ _ => ⟨none, String.toList "a", String.toList "b"⟩)
      [] (String.toList "f")
      = ([], some (String.toList "ENOENT: f"))
    ∧ minifyScript (fun _ _ => ⟨none, String.toList "a", String.toList "b"⟩)
        [] (String.toList "f")
      = minifyScript (fun _ _ => ⟨some (String.toList "x"), [], []⟩)
          [] (String.toList "f") :=
  c10_read_failure _ _ [] (String.toList "f") (String.toList "ENOENT: f") (Or.inl rfl)

/-- C9: `cli` resolves the third and fourth argument-vector entries against
the working directory, passes them to `build`, fulfils its own promise
regardless of `build`'s outcome, and leaves a `build` rejection unhandled;
with an absolute working directory the resolved path is absolute. -/
theorem c9_cli (buildFn : Option Str → Option Str → Except Str Unit)
    (cwd x0 x1 a b : Str) (rest : List Str) :
    (cli buildFn cwd (x0 :: x1 :: a :: b :: rest)).calledEntry
      = some (jsPathResolve cwd a)
    ∧ (cli buildFn cwd (x0 :: x1 :: a :: b :: rest)).calledDist
      = some (jsPathResolve cwd b)
    ∧ (cli buildFn cwd (x0 :: x1 :: a :: b :: rest)).cliOutcome = Except.ok ()
    ∧ (∀ e, buildFn (some (jsPathResolve cwd a)) (some (jsPathResolve cwd b))
        = Except.error e →
        (cli buildFn cwd (x0 :: x1 :: a :: b :: rest)).unhandledRejection = some e)
    ∧ (cwd.head? = some '/' → (jsPathResolve cwd a).head? = some '/') := by
  refine ⟨rfl, rfl, rfl, ?_, ?_⟩
  · intro e he
    simp [cli, he]
  · intro hcwd
    unfold jsPathResolve
    by_cases ha : a.head? = some '/'
    · simp [ha]
    · simp [ha]
      cases cwd with
      | nil => simp at hcwd
      | cons c cs =>
        simp at hcwd
        simp [hcwd]

/-- C9 witness: with a concrete failing `build` and argument vector, the
rejection is recorded as unhandled, and the resolved path is absolute. -/
theorem c9_cli_witness :
    (cli (fun _ _ => Except.error (String.toList "boom")) (String.toList "/cwd")
        [String.toList "node", String.toList "script.js",
         String.toList "in.js", String.toList "out.js"]).unhandledRejection
      = some (String.toList "boom")
    ∧ (jsPathResolve (String.toList "/cwd") (String.toList "in.js")).head? = some '/' :=
  ⟨(c9_cli (fun _ _ => Except.error (String.toList "boom")) (String.toList "/cwd")
      (String.toList "node") (String.toList "script.js")
      (String.toList "in.js") (String.toList "out.js") []).2.2.2.1
      (String.toList "boom") rfl,
   (c9_cli (fun _ _ => Except.error (String.toList "boom")) (String.toList "/cwd")
      (String.toList "node") (String.toList "script.js")
      (String.toList "in.js") (String.toList "out.js") []).2.2.2.2 rfl⟩

/-- C2 witness: a concrete devtools entry over a one-element registry ignores
the report-template asset module. -/
theorem c2_devtools_policy_witness :
    BundleOp.ignore htmlReportAssetsPath
      ∈ browserifyOps ⟨[String.toList "a.js"], [String.toList "g.js"],
          [String.toList "/locales/en.json"], [String.toList "pub-audit"]⟩
        (String.toList "./devtools-entry.js") :=
  (c2_devtools_policy ⟨[String.toList "a.js"], [String.toList "g.js"],
      [String.toList "/locales/en.json"], [String.toList "pub-audit"]⟩
    (String.toList "./devtools-entry.js") (by decide)).1

/-- C4 witness: a concrete entry matching neither rule ignores exactly the
fixed list plus the protocol connection. -/
theorem c4_default_policy_witness :
    ignoreTargets (browserifyOps ⟨[String.toList "a.js"], [String.toList "g.js"],
        [String.toList "/locales/en.json"], [String.toList "pub-audit"]⟩
      (String.toList "./extension-entry.js")) = fixedIgnores ++ [criPath] :=
  (c4_default_policy ⟨[String.toList "a.js"], [String.toList "g.js"],
      [String.toList "/locales/en.json"], [String.toList "pub-audit"]⟩
    (String.toList "./extension-entry.js") (by decide) (by decide)).1

/-- C8 witness: the concrete audit file `a.js` is registered under the
derived logical load path `../audits/a`. -/
theorem c8_logical_load_paths_witness :
    replaceFirstL corePath (String.toList "../")
        (String.toList "./lighthouse-core/audits/" ++ dropJsSuffix (String.toList "a.js"))
      = String.toList "../audits/" ++ dropJsSuffix (String.toList "a.js")
    ∧ BundleOp.require
        (String.toList "./lighthouse-core/audits/" ++ dropJsSuffix (String.toList "a.js"))
        (some (String.toList "../audits/" ++ dropJsSuffix (String.toList "a.js")))
        ∈ browserifyOps ⟨[String.toList "a.js"], [], [], []⟩ (String.toList "./entry.js") :=
  (c8_logical_load_paths ⟨[String.toList "a.js"], [], [], []⟩
    (String.toList "./entry.js") (String.toList "a.js")).1 (by decide)

end BuildBundle
